import Mathlib

/-!
Verification of the metric-video-player core against its specification.

The Rust source is shallowly embedded:
  * wall-clock `Instant`s are nanosecond counts (`Nat`); `a.elapsed()` at
    time `now` is `now - a` (truncated subtraction, as `Instant` arithmetic
    is never negative for a monotonic clock);
  * `f64` quantities (seconds, FPS, MB, percent) are modelled as `ℚ`; the
    claims under study concern which formula the code selects, not float
    rounding;
  * byte buffers are `List Nat`;
  * fallible calls return `Except DecodeError`.
-/

/-! ## Pacing decisions (src/gui.rs `update_frame`, src/sdl_gui.rs `run_sdl_gui`)

`gui_should_advance` embeds the `should_advance` computation of
`MetricVideoPlayerApp::update_frame` (gui.rs lines 45-55):
  - if `last_frame_time` is `None`, always advance (first frame);
  - otherwise the target interval is `1_000_000_000 / target_fps` ns when
    `target_fps > 0`, and `Duration::from_millis(33)` (the "~30 FPS default")
    when `target_fps == 0`; advance iff elapsed ≥ interval.

`sdl_should_advance` embeds the `should_advance` computation of
`run_sdl_gui` (sdl_gui.rs lines 57-62): when `target_fps > 0`, advance iff
elapsed ≥ `1_000_000_000 / target_fps` ns; when `target_fps == 0`, always
advance ("Maximum FPS"). `last_frame_time` there is a plain `Instant`
initialised before the loop, so there is no first-call case. -/

def gui_should_advance (target_fps : Nat) (last_frame_time : Option Nat)
    (now : Nat) : Bool :=
  match last_frame_time with
  | some last_time =>
      let target_interval : Nat :=
        if target_fps > 0 then 1000000000 / target_fps else 33000000
      decide (now - last_time ≥ target_interval)
  | none => true

def sdl_should_advance (target_fps : Nat) (last_frame_time : Nat)
    (now : Nat) : Bool :=
  if target_fps > 0 then
    decide (now - last_frame_time ≥ 1000000000 / target_fps)
  else
    true

/-! ## Pixel-buffer normalization (src/video_player.rs `next_frame`, lines 152-166 and 208-220)

`copy_rows` embeds the row-by-row copy branch: for each row `y` in
`0..height`, append `data_ptr[y*linesize .. y*linesize + width*3]`.
`normalize_frame` embeds the whole stride-handling `let data = ...`:
the verbatim `data_ptr.to_vec()` fast path when `linesize == width * 3`,
and `copy_rows` otherwise. -/

def copy_rows (width height stride : Nat) (src : List Nat) : List Nat :=
  (List.range height).flatMap (fun y => ((src.drop (y * stride)).take (width * 3)))

def normalize_frame (width height stride : Nat) (src : List Nat) : List Nat :=
  if stride = width * 3 then src else copy_rows width height stride src

/-- Reference buffer built from the spec's words (§4.2 / §8): take each row of
the padded source (rows are `stride` bytes long), strip it to its first
`width*3` bytes, and concatenate the stripped rows. -/
def rows_stripped_reference (width height stride : Nat) (src : List Nat) : List Nat :=
  ((List.range height).map
    (fun y => ((src.drop (y * stride)).take stride).take (width * 3))).flatten

/-! ## Metrics collector (src/metrics.rs)

`FrameMetrics` and `SessionMetrics` mirror the structs of metrics.rs, with
`f64` as `ℚ` and `DateTime<Utc>` as an abstract `Nat` tick.  `min_fps` is
`WithTop ℚ` because `get_min_fps` folds `f64::min` from `f64::INFINITY`
(metrics.rs line 184); `⊤` models `+∞`, which `ℚ` itself lacks.

`MetricsCollector` carries exactly the fields the recorded claims touch;
the `sysinfo::System` handle and pid are the external snapshot provider and
appear as the `memory_usage_mb` / `cpu_usage_percent` inputs of
`record_frame`. -/

structure FrameMetrics where
  frame_number : Nat
  timestamp : ℚ
  processing_time_ms : ℚ
  memory_usage_mb : ℚ
  cpu_usage_percent : ℚ
deriving DecidableEq, Repr

structure SessionMetrics where
  start_time : Nat
  end_time : Option Nat
  total_frames : Nat
  total_duration_seconds : ℚ
  average_fps : ℚ
  max_fps : ℚ
  min_fps : WithTop ℚ
  peak_memory_mb : ℚ
  average_memory_mb : ℚ
  average_cpu_percent : ℚ
  peak_cpu_percent : ℚ
  dropped_frames : Nat
  frame_metrics : List FrameMetrics
deriving DecidableEq

structure MetricsCollector where
  session_start : Nat
  session_start_utc : Nat
  frame_times : List (Nat × Nat)
  frame_metrics : List FrameMetrics
  total_frames : Nat
  peak_memory_mb : ℚ
  peak_cpu_percent : ℚ
  dropped_frames : Nat
  fps_window_size : Nat
  last_frame_time : Option Nat
deriving DecidableEq, Repr

/-- `MetricsCollector::new` (metrics.rs lines 58-80), with the construction
instant passed in. -/
def MetricsCollector.new (now now_utc : Nat) : MetricsCollector :=
  { session_start := now
    session_start_utc := now_utc
    frame_times := []
    frame_metrics := []
    total_frames := 0
    peak_memory_mb := 0
    peak_cpu_percent := 0
    dropped_frames := 0
    fps_window_size := 60
    last_frame_time := none }

/-- `MetricsCollector::record_frame` (metrics.rs lines 82-130).  `now` is
`Instant::now()`; `frame_timestamp` is `frame.timestamp.as_secs_f64()`;
`memory_usage_mb` and `cpu_usage_percent` are the values sampled from the
external system-snapshot provider (already converted to MB / percent). -/
def record_frame (m : MetricsCollector) (now : Nat) (frame_number : Nat)
    (frame_timestamp memory_usage_mb cpu_usage_percent : ℚ) : MetricsCollector :=
  let processing_time_ms : ℚ :=
    match m.last_frame_time with
    | some last_time => (((now - last_time : Nat) : ℚ) / 1000000000) * 1000
    | none => 0
  let fm : FrameMetrics :=
    { frame_number := frame_number
      timestamp := frame_timestamp
      processing_time_ms := processing_time_ms
      memory_usage_mb := memory_usage_mb
      cpu_usage_percent := cpu_usage_percent }
  let frame_times := m.frame_times ++ [(now, frame_number)]
  { m with
    peak_memory_mb := max m.peak_memory_mb memory_usage_mb
    peak_cpu_percent := max m.peak_cpu_percent cpu_usage_percent
    frame_metrics := m.frame_metrics ++ [fm]
    frame_times :=
      if frame_times.length > m.fps_window_size then frame_times.tail else frame_times
    total_frames := m.total_frames + 1
    last_frame_time := some now }

/-- `MetricsCollector::get_current_fps` (metrics.rs lines 132-148).  The
`headD`/`getLastD` defaults are never used: the length guard ensures the
deque is nonempty, matching the `unwrap()`s in the source. -/
def get_current_fps (m : MetricsCollector) : ℚ :=
  if m.frame_times.length < 2 then 0
  else
    let f := m.frame_times.headD (0, 0)
    let l := m.frame_times.getLastD (0, 0)
    let time_diff : ℚ := ((l.1 - f.1 : Nat) : ℚ) / 1000000000
    let frame_diff : Nat := l.2 - f.2
    if time_diff > 0 then (frame_diff : ℚ) / time_diff else 0

/-- `MetricsCollector::get_average_fps` (metrics.rs lines 150-157), with the
current instant passed in (`session_start.elapsed()` is `now - session_start`). -/
def get_average_fps (m : MetricsCollector) (now : Nat) : ℚ :=
  let elapsed : ℚ := ((now - m.session_start : Nat) : ℚ) / 1000000000
  if elapsed > 0 then (m.total_frames : ℚ) / elapsed else 0

/-- `MetricsCollector::get_max_fps` (metrics.rs lines 159-171):
`windows(2)` over the sample log, `1/Δtimestamp` for positive deltas and `0`
otherwise, folded with `f64::max` from `0.0`. -/
def get_max_fps (m : MetricsCollector) : ℚ :=
  ((m.frame_metrics.zip m.frame_metrics.tail).map
    (fun w =>
      let time_diff := w.2.timestamp - w.1.timestamp
      if time_diff > 0 then 1 / time_diff else 0)).foldl max 0

/-- `MetricsCollector::get_min_fps` (metrics.rs lines 173-185): as
`get_max_fps` but zero/negative deltas contribute `f64::INFINITY` (here `⊤`),
folded with `f64::min` from `f64::INFINITY`. -/
def get_min_fps (m : MetricsCollector) : WithTop ℚ :=
  ((m.frame_metrics.zip m.frame_metrics.tail).map
    (fun w =>
      let time_diff := w.2.timestamp - w.1.timestamp
      if time_diff > 0 then ((1 / time_diff : ℚ) : WithTop ℚ) else ⊤)).foldl min ⊤

/-- `MetricsCollector::get_peak_memory_mb` (metrics.rs lines 187-189). -/
def get_peak_memory_mb (m : MetricsCollector) : ℚ := m.peak_memory_mb

/-- `MetricsCollector::get_average_memory_mb` (metrics.rs lines 191-199). -/
def get_average_memory_mb (m : MetricsCollector) : ℚ :=
  if m.frame_metrics.isEmpty then 0
  else (m.frame_metrics.map (fun fm => fm.memory_usage_mb)).sum / (m.frame_metrics.length : ℚ)

/-- `MetricsCollector::get_peak_cpu_percent` (metrics.rs lines 201-203). -/
def get_peak_cpu_percent (m : MetricsCollector) : ℚ := m.peak_cpu_percent

/-- `MetricsCollector::get_average_cpu_percent` (metrics.rs lines 205-213). -/
def get_average_cpu_percent (m : MetricsCollector) : ℚ :=
  if m.frame_metrics.isEmpty then 0
  else (m.frame_metrics.map (fun fm => fm.cpu_usage_percent)).sum / (m.frame_metrics.length : ℚ)

/-- `MetricsCollector::finalize_session` (metrics.rs lines 231-247).  The Rust
method takes `&mut self` but assigns no field; the embedding returns the
(unchanged) collector alongside the report to make that explicit.  `now` is
the call instant (for `session_start.elapsed()`), `now_utc` the `Utc::now()`
tick recorded as `end_time`. -/
def finalize_session (m : MetricsCollector) (now now_utc : Nat) :
    MetricsCollector × SessionMetrics :=
  (m,
    { start_time := m.session_start_utc
      end_time := some now_utc
      total_frames := m.total_frames
      total_duration_seconds := ((now - m.session_start : Nat) : ℚ) / 1000000000
      average_fps := get_average_fps m now
      max_fps := get_max_fps m
      min_fps := get_min_fps m
      peak_memory_mb := m.peak_memory_mb
      average_memory_mb := get_average_memory_mb m
      average_cpu_percent := get_average_cpu_percent m
      peak_cpu_percent := m.peak_cpu_percent
      dropped_frames := m.dropped_frames
      frame_metrics := m.frame_metrics })

/-! ## Frame source (src/video_player.rs)

The external FFmpeg decode capability is modelled per its documented
`avcodec_send_packet` / `avcodec_receive_frame` contract, at the level the
player observes:

  * a `RawFrame` is one decoded frame after `scaler.run` converted it to
    RGB24 at the native size: `width`/`height`/`stride` and the plane-0 byte
    buffer (`frame.data(0)`, of length `stride * height`), together with the
    presentation timestamp `frame.timestamp()` of the decoded frame;
  * a `Packet` is one compressed unit read from the container: its stream
    index, the decoded frames the decoder releases while draining after this
    packet is sent (`frames`, possibly empty — decoder buffering), and the
    frames the decoder keeps buffered until the end-of-stream flush
    (`delayed`);
  * the `Decoder` holds the FIFO of currently receivable frames, the frames
    only released on flush, and whether a flush packet has been sent.
    Sending a packet or a second flush packet to a flushed decoder returns
    `AVERROR_EOF` ("the decoder has been flushed, and no new packets can be
    sent to it; also returned if more than 1 flush packet is sent"), which
    ffmpeg-next surfaces as an `Err` that `next_frame` propagates with `?`.
-/

structure RawFrame where
  width : Nat
  height : Nat
  stride : Nat
  data : List Nat
  pts : Option Int
deriving DecidableEq, Repr

structure Packet where
  stream_index : Nat
  frames : List RawFrame
  delayed : List RawFrame
deriving DecidableEq, Repr

inductive DecodeError where
  | eof : DecodeError
deriving DecidableEq, Repr

structure Decoder where
  queue : List RawFrame
  to_flush : List RawFrame
  flushed : Bool
deriving DecidableEq, Repr

/-- `decoder.send_packet(&packet)`: fails with `AVERROR_EOF` on a flushed
decoder; otherwise the packet's immediately-decodable frames join the
receivable FIFO and its lookahead frames join the flush buffer. -/
def Decoder.send_packet (d : Decoder) (p : Packet) : Except DecodeError Decoder :=
  if d.flushed then .error .eof
  else .ok { d with queue := d.queue ++ p.frames, to_flush := d.to_flush ++ p.delayed }

/-- `decoder.send_eof()`: the first flush packet releases the buffered
frames; any further flush packet returns `AVERROR_EOF`. -/
def Decoder.send_eof (d : Decoder) : Except DecodeError Decoder :=
  if d.flushed then .error .eof
  else .ok { queue := d.queue ++ d.to_flush, to_flush := [], flushed := true }

/-- `decoder.receive_frame(&mut frame)`: pops the next receivable frame;
`none` models both `EAGAIN` and `EOF`, which the source only inspects
through `.is_ok()`. -/
def Decoder.receive_frame (d : Decoder) : Decoder × Option RawFrame :=
  match d.queue with
  | [] => (d, none)
  | f :: rest => ({ d with queue := rest }, some f)

structure VideoFrame where
  data : List Nat
  width : Nat
  height : Nat
  timestamp : ℚ
  frame_number : Nat
deriving DecidableEq, Repr

/-- The mutable state of `VideoPlayer` that `next_frame` reads or writes:
the container's remaining packets (`format_context` read cursor), the
selected stream's index and time base, the decoder, and the playback
cursor/metadata.  `duration` is in seconds and nonnegative (a Rust
`Duration`). -/
structure PlayerState where
  packets : List Packet
  video_stream_index : Nat
  time_base : ℚ
  dec : Decoder
  current_frame : Nat
  total_frames : Nat
  duration : ℚ
deriving DecidableEq, Repr

/-- `VideoPlayer::new` (video_player.rs lines 111-122): the playback cursor
starts at 0 and the freshly constructed decoder holds no frames. -/
def new_player (packets : List Packet) (video_stream_index : Nat)
    (time_base : ℚ) (total_frames : Nat) (duration : ℚ) : PlayerState :=
  { packets := packets
    video_stream_index := video_stream_index
    time_base := time_base
    dec := { queue := [], to_flush := [], flushed := false }
    current_frame := 0
    total_frames := total_frames
    duration := duration }

/-- `VideoPlayer::get_native_fps` (video_player.rs lines 278-284). -/
def get_native_fps (s : PlayerState) : ℚ :=
  if s.duration > 0 then (s.total_frames : ℚ) / s.duration else 30

/-- Body of the normal-path drain loop (video_player.rs lines 138-191):
increment `current_frame`, normalize the RGB plane, derive the timestamp
(prefer a present, nonnegative pts scaled by the stream time base; fall
back to `current_frame / native_fps`), and return the `VideoFrame`. -/
def emit_normal (s : PlayerState) (raw : RawFrame) :
    PlayerState × Except DecodeError (Option VideoFrame) :=
  let s' := { s with current_frame := s.current_frame + 1 }
  let data := normalize_frame raw.width raw.height raw.stride raw.data
  let timestamp : ℚ :=
    match raw.pts with
    | some pts =>
        let time_secs : ℚ := (pts : ℚ) * s.time_base
        if time_secs ≥ 0 then time_secs
        else (s'.current_frame : ℚ) / get_native_fps s'
    | none => (s'.current_frame : ℚ) / get_native_fps s'
  (s', .ok (some
    { data := data
      width := raw.width
      height := raw.height
      timestamp := timestamp
      frame_number := s'.current_frame }))

/-- Body of the flush-path drain loop (video_player.rs lines 197-232): same
as the normal path except the timestamp is always
`current_frame / native_fps` — the decoded frame's pts is not consulted. -/
def emit_flush (s : PlayerState) (raw : RawFrame) :
    PlayerState × Except DecodeError (Option VideoFrame) :=
  let s' := { s with current_frame := s.current_frame + 1 }
  let data := normalize_frame raw.width raw.height raw.stride raw.data
  let timestamp : ℚ := (s'.current_frame : ℚ) / get_native_fps s'
  (s', .ok (some
    { data := data
      width := raw.width
      height := raw.height
      timestamp := timestamp
      frame_number := s'.current_frame }))

/-- The packet loop of `next_frame` (video_player.rs lines 130-193): read
packets in order, skip those of other streams, send each video packet and
drain the decoder; stop at the first received frame.  Returns the remaining
packets, the decoder state, and either the first decoded frame, `none`
(container exhausted), or the error a send raised. -/
def read_packets (packets : List Packet) (idx : Nat) (d : Decoder) :
    List Packet × Decoder × Except DecodeError (Option RawFrame) :=
  match packets with
  | [] => ([], d, .ok none)
  | p :: rest =>
      if p.stream_index ≠ idx then read_packets rest idx d
      else
        match d.send_packet p with
        | .error e => (rest, d, .error e)
        | .ok d1 =>
            match d1.receive_frame with
            | (d2, some raw) => (rest, d2, .ok (some raw))
            | (d2, none) => read_packets rest idx d2

/-- `VideoPlayer::next_frame` (video_player.rs lines 125-236): try the
normal read path; once the container is exhausted, send the end-of-stream
flush (`send_eof()?` — unguarded, so it is re-sent on every later call) and
drain one buffered frame, or report `Ok(None)`. -/
def next_frame (s : PlayerState) :
    PlayerState × Except DecodeError (Option VideoFrame) :=
  match read_packets s.packets s.video_stream_index s.dec with
  | (remaining, d, .error e) =>
      ({ s with packets := remaining, dec := d }, .error e)
  | (remaining, d, .ok (some raw)) =>
      emit_normal { s with packets := remaining, dec := d } raw
  | (remaining, d, .ok none) =>
      match d.send_eof with
      | .error e => ({ s with packets := remaining, dec := d }, .error e)
      | .ok d1 =>
          match d1.receive_frame with
          | (d2, some raw) => emit_flush { s with packets := remaining, dec := d2 } raw
          | (d2, none) => ({ s with packets := remaining, dec := d2 }, .ok none)

/-- `VideoPlayer::seek_to_frame` (video_player.rs lines 286-291): logs a
warning and returns `Ok(())` without touching any state. -/
def seek_to_frame (s : PlayerState) (_frame_number : Nat) :
    PlayerState × Except DecodeError Unit :=
  (s, .ok ())

/-! ## Supporting definitions for the claims -/

/-- `n` consecutive `next_frame` calls, each returning `Ok(Some(frame))`. -/
inductive Emits : PlayerState → Nat → PlayerState → Prop
  | refl (s : PlayerState) : Emits s 0 s
  | step {s s' s'' : PlayerState} {f : VideoFrame} {n : Nat} :
      next_frame s = (s', .ok (some f)) → Emits s' n s'' → Emits s (n + 1) s''

/-- A sequence of `record_frame` calls, each input being
`(now, frame_number, frame_timestamp, memory_usage_mb, cpu_usage_percent)`. -/
def record_many (m : MetricsCollector) (l : List (Nat × Nat × ℚ × ℚ × ℚ)) :
    MetricsCollector :=
  l.foldl (fun acc i => record_frame acc i.1 i.2.1 i.2.2.1 i.2.2.2.1 i.2.2.2.2) m

/-- Concrete collector for exercising `get_current_fps`: two window entries,
one second and thirty frames apart. -/
def fps_window_collector : MetricsCollector :=
  { MetricsCollector.new 0 0 with frame_times := [(0, 1), (1000000000, 31)] }

/-- Concrete collector with one recorded frame, for the finalize claims. -/
def one_frame_collector : MetricsCollector :=
  record_frame (MetricsCollector.new 0 0) 0 1 0 100 50

/-- Concrete packet whose single compressed unit decodes to one frame. -/
def one_frame_packet : Packet :=
  { stream_index := 0
    frames := [{ width := 1, height := 1, stride := 3, data := [10, 20, 30], pts := none }]
    delayed := [] }

/-- Player opened on a one-packet container (unknown metadata: duration 0). -/
def one_frame_player : PlayerState := new_player [one_frame_packet] 0 1 0 0

/-- `one_frame_player` after its first `next_frame` call. -/
def one_frame_player_after : PlayerState :=
  { packets := []
    video_stream_index := 0
    time_base := 1
    dec := { queue := [], to_flush := [], flushed := false }
    current_frame := 1
    total_frames := 0
    duration := 0 }

/-- The frame `one_frame_player`'s first `next_frame` call emits (fallback
timestamp `1 / 30` since the duration metadata is 0). -/
def one_frame_frame : VideoFrame :=
  { data := [10, 20, 30], width := 1, height := 1, timestamp := 1 / 30, frame_number := 1 }

/-- Player at end of stream: no packets and nothing buffered. -/
def exhausted_player : PlayerState := new_player [] 0 1 0 0

/-- A decoded frame the decoder holds back until the end-of-stream flush,
carrying a nonnegative presentation timestamp (`pts = 5`). -/
def flush_raw : RawFrame := { width := 0, height := 0, stride := 0, data := [], pts := some 5 }

/-- A container whose only packet yields no immediate frame; the decoder
buffers `flush_raw` until flush.  Metadata: 1 frame, 1 second. -/
def flush_player : PlayerState :=
  new_player [{ stream_index := 0, frames := [], delayed := [flush_raw] }] 0 1 1 1

/-- Two decoder-buffered frames released only at flush (stream metadata:
2 frames, 1 second). -/
def two_flush_player : PlayerState :=
  new_player
    [{ stream_index := 0
       frames := []
       delayed := [{ width := 1, height := 1, stride := 3, data := [1, 2, 3], pts := none },
         { width := 1, height := 1, stride := 3, data := [4, 5, 6], pts := none }] }]
    0 1 2 1

/-- Input for exercising the normal-path timestamp rule: a frame with
`pts = 2` on a stream with time base 1. -/
def pts_raw : RawFrame := { width := 0, height := 0, stride := 0, data := [], pts := some 2 }

/-- Player state for the normal-path timestamp witness. -/
def pts_player : PlayerState := new_player [] 0 1 1 1

/-- The frame `emit_normal pts_player pts_raw` produces. -/
def pts_frame : VideoFrame :=
  { data := [], width := 0, height := 0, timestamp := 2, frame_number := 1 }

/-! ## The claims -/

/-- C1 (counterexample): the claim says that with `target_fps == 0` the
poll-mode should-advance decision is true regardless of elapsed time, on
every call.  In the egui loop (gui.rs lines 45-55) a call with a prior emit
and zero elapsed time decides `false`, because `target_fps == 0` there uses
a 33 ms default interval instead of "always advance". -/
theorem c1_counterexample : gui_should_advance 0 (some 0) 0 = false := by decide

/-- C1 (amended): the egui poll decision (gui.rs) is unconditionally true on
the very first call; with a prior emit it is true iff the elapsed time is at
least `1e9/target_fps` ns when `target_fps > 0`, and at least 33 ms (a
~30 FPS default cap, not "always true") when `target_fps == 0`.  The SDL
poll decision (sdl_gui.rs) is always true when `target_fps == 0` and
otherwise true iff the elapsed time is at least `1e9/target_fps` ns, with no
first-call case (its last-emit instant is initialised before the loop).  In
both, with `target_fps = 30` a second call within 1 ms of the previous emit
decides false. -/
theorem c1_pacing_poll_mode :
    (∀ target_fps now, gui_should_advance target_fps none now = true) ∧
    (∀ target_fps last now, 0 < target_fps →
      (gui_should_advance target_fps (some last) now = true ↔
        1000000000 / target_fps ≤ now - last)) ∧
    (∀ last now, gui_should_advance 0 (some last) now = true ↔ 33000000 ≤ now - last) ∧
    (∀ last now, sdl_should_advance 0 last now = true) ∧
    (∀ target_fps last now, 0 < target_fps →
      (sdl_should_advance target_fps last now = true ↔
        1000000000 / target_fps ≤ now - last)) ∧
    (∀ last d, d ≤ 1000000 →
      gui_should_advance 30 (some last) (last + d) = false ∧
      sdl_should_advance 30 last (last + d) = false) := by
  refine ⟨fun _ _ => rfl, fun target_fps last now h => ?_, fun last now => ?_,
    fun last now => ?_, fun target_fps last now h => ?_, fun last d hd => ?_⟩
  · simp [gui_should_advance, h]
  · simp [gui_should_advance]
  · simp [sdl_should_advance]
  · simp [sdl_should_advance, h]
  · have helapsed : last + d - last = d := by omega
    have hlt : ¬ (1000000000 / 30 ≤ d) := by omega
    constructor
    · simp [gui_should_advance, helapsed]
      omega
    · simp [sdl_should_advance, helapsed]
      omega

/-- C1 (witness for the amended theorem): with `target_fps = 30`, both poll
decisions report false 1 ms after the previous emit. -/
theorem c1_pacing_poll_mode_witness :
    gui_should_advance 30 (some 0) (0 + 1000000) = false ∧
    sdl_should_advance 30 0 (0 + 1000000) = false :=
  c1_pacing_poll_mode.2.2.2.2.2 0 1000000 (by decide)

/-- C10: `seek_to_frame` returns `Ok(())` for every frame number and leaves
the player state untouched. -/
theorem c10_seek_is_noop :
    ∀ (s : PlayerState) (n : Nat), seek_to_frame s n = (s, .ok ()) :=
  fun _ _ => rfl

/-- C8: `get_current_fps` is derived from the FPS window only: 0 when the
window holds fewer than two entries; with at least two entries it is 0 when
the elapsed time between the first and last entries is exactly zero, and
`(last_frame_number - first_frame_number) / elapsed_seconds` otherwise. -/
theorem c8_current_fps_from_window :
    ∀ m : MetricsCollector,
      (m.frame_times.length < 2 → get_current_fps m = 0) ∧
      (2 ≤ m.frame_times.length →
        (((m.frame_times.getLastD (0, 0)).1 - (m.frame_times.headD (0, 0)).1 : Nat) = 0 →
          get_current_fps m = 0) ∧
        (0 < ((m.frame_times.getLastD (0, 0)).1 - (m.frame_times.headD (0, 0)).1 : Nat) →
          get_current_fps m =
            (((m.frame_times.getLastD (0, 0)).2 - (m.frame_times.headD (0, 0)).2 : Nat) : ℚ) /
              ((((m.frame_times.getLastD (0, 0)).1 - (m.frame_times.headD (0, 0)).1 : Nat) : ℚ) /
                1000000000))) := by
  intro m
  have hcast : ∀ k : Nat, 0 < k → (0 : ℚ) < (k : ℚ) / 1000000000 := by
    intro k hk
    positivity
  refine ⟨fun h => by simp [get_current_fps, h], fun h => ⟨fun h0 => ?_, fun hpos => ?_⟩⟩
  · have hlen : ¬ m.frame_times.length < 2 := Nat.not_lt.mpr h
    simp at h0
    simp [get_current_fps, hlen]
    omega
  · have hlen : ¬ m.frame_times.length < 2 := Nat.not_lt.mpr h
    simp at hpos
    simp [get_current_fps, hlen]
    intro hle
    exact absurd hle (by omega)

/-- C8 (witness): a window holding `(t=0s, frame 1)` and `(t=1s, frame 31)`
yields exactly 30 FPS. -/
theorem c8_current_fps_from_window_witness :
    get_current_fps fps_window_collector = 30 := by
  have h := ((c8_current_fps_from_window fps_window_collector).2 (by decide)).2 (by decide)
  rw [h]
  norm_num [fps_window_collector, MetricsCollector.new]

/-- C9: each `record_frame` updates the running peaks as
`peak = max(peak, current)`, so across any sequence of records — however the
instantaneous snapshots fluctuate — `get_peak_memory_mb` and
`get_peak_cpu_percent` never return less than they did at any earlier
point. -/
theorem c9_peaks_monotone :
    (∀ m now frame_number ts mem cpu,
      get_peak_memory_mb (record_frame m now frame_number ts mem cpu) =
        max (get_peak_memory_mb m) mem ∧
      get_peak_cpu_percent (record_frame m now frame_number ts mem cpu) =
        max (get_peak_cpu_percent m) cpu) ∧
    (∀ m l, get_peak_memory_mb m ≤ get_peak_memory_mb (record_many m l) ∧
      get_peak_cpu_percent m ≤ get_peak_cpu_percent (record_many m l)) := by
  constructor
  · intro m now frame_number ts mem cpu
    exact ⟨rfl, rfl⟩
  · intro m l
    induction l generalizing m with
    | nil => exact ⟨le_refl _, le_refl _⟩
    | cons i rest ih =>
        have hstep := ih (record_frame m i.1 i.2.1 i.2.2.1 i.2.2.2.1 i.2.2.2.2)
        refine ⟨le_trans (le_max_left _ _) hstep.1, le_trans (le_max_left _ _) hstep.2⟩

/-- C3 (counterexample): the claim says two consecutive `finalize` calls with
no intervening `record` return identical `average_fps` even though `end_time`
may differ by a small wall-clock delta.  But `average_fps` is recomputed from
the elapsed session time at each call (`total_frames / session_start.elapsed()`),
so after one recorded frame, finalizing at t = 1 s and again at t = 2 s yields
1.0 and then 0.5. -/
theorem c3_counterexample :
    (finalize_session one_frame_collector 1000000000 7).2.average_fps ≠
      (finalize_session one_frame_collector 2000000000 8).2.average_fps := by
  norm_num [one_frame_collector, record_frame, MetricsCollector.new, finalize_session,
    get_average_fps]

/-- C3 (amended): `finalize_session` is side-effect-free (it resets no
counter and returns the collector unchanged), and every report field that is
a function of the aggregator state alone — `total_frames`, `peak_memory_mb`,
`peak_cpu_percent`, `dropped_frames`, `max_fps`, `min_fps`, the averages over
the sample log, and the log itself — is identical across two consecutive
calls with no intervening `record`.  `average_fps` (like `end_time` and
`total_duration_seconds`) depends on the call instant: it is identical when
the two calls observe the same instant, and it is 0 in both reports when no
frame was recorded, but otherwise it varies with the wall-clock delta. -/
theorem c3_finalize_idempotent :
    ∀ (m : MetricsCollector) (now1 utc1 now2 utc2 : Nat),
      (finalize_session m now1 utc1).1 = m ∧
      (finalize_session m now1 utc1).2.total_frames =
        (finalize_session m now2 utc2).2.total_frames ∧
      (finalize_session m now1 utc1).2.peak_memory_mb =
        (finalize_session m now2 utc2).2.peak_memory_mb ∧
      (finalize_session m now1 utc1).2.peak_cpu_percent =
        (finalize_session m now2 utc2).2.peak_cpu_percent ∧
      (finalize_session m now1 utc1).2.dropped_frames =
        (finalize_session m now2 utc2).2.dropped_frames ∧
      (finalize_session m now1 utc1).2.max_fps =
        (finalize_session m now2 utc2).2.max_fps ∧
      (finalize_session m now1 utc1).2.min_fps =
        (finalize_session m now2 utc2).2.min_fps ∧
      (finalize_session m now1 utc1).2.average_memory_mb =
        (finalize_session m now2 utc2).2.average_memory_mb ∧
      (finalize_session m now1 utc1).2.average_cpu_percent =
        (finalize_session m now2 utc2).2.average_cpu_percent ∧
      (finalize_session m now1 utc1).2.frame_metrics =
        (finalize_session m now2 utc2).2.frame_metrics ∧
      (now1 = now2 →
        (finalize_session m now1 utc1).2.average_fps =
          (finalize_session m now2 utc2).2.average_fps) ∧
      (m.total_frames = 0 → (finalize_session m now1 utc1).2.average_fps = 0) := by
  intro m now1 utc1 now2 utc2
  refine ⟨rfl, rfl, rfl, rfl, rfl, rfl, rfl, rfl, rfl, rfl, fun h => ?_, fun h => ?_⟩
  · subst h
    rfl
  · simp [finalize_session, get_average_fps, h]

/-- C3 (witness for the amended theorem): on the one-frame collector,
finalizing twice at the same instant (with different `Utc::now()` ticks)
gives the same `average_fps`, the collector is returned unchanged, and
`total_frames` agrees across two calls a second apart. -/
theorem c3_finalize_idempotent_witness :
    (finalize_session one_frame_collector 1000000000 7).1 = one_frame_collector ∧
    (finalize_session one_frame_collector 1000000000 7).2.average_fps =
      (finalize_session one_frame_collector 1000000000 8).2.average_fps ∧
    (finalize_session one_frame_collector 1000000000 7).2.total_frames =
      (finalize_session one_frame_collector 2000000000 8).2.total_frames := by
  have h1 := c3_finalize_idempotent one_frame_collector 1000000000 7 1000000000 8
  have h2 := c3_finalize_idempotent one_frame_collector 1000000000 7 2000000000 8
  exact ⟨h1.1, h1.2.2.2.2.2.2.2.2.2.2.1 rfl, h2.2.1⟩

/-- Splitting off the last row of a row-by-row copy. -/
theorem copy_rows_succ (width n stride : Nat) (src : List Nat) :
    copy_rows width (n + 1) stride src =
      copy_rows width n stride src ++ ((src.drop (n * stride)).take (width * 3)) := by
  unfold copy_rows
  rw [List.range_succ, List.flatMap_append]
  simp

/-- Length of the row-by-row copy: `width * height * 3` whenever the rows it
reads stay inside the source buffer. -/
theorem copy_rows_length (width stride : Nat) :
    ∀ (height : Nat) (src : List Nat), width * 3 ≤ stride →
      stride * height ≤ src.length →
      (copy_rows width height stride src).length = width * height * 3 := by
  intro height
  induction height with
  | zero => intro src _ _; simp [copy_rows]
  | succ n ih =>
      intro src hws hlen
      have hmul : stride * (n + 1) = stride * n + stride := Nat.mul_succ stride n
      have hlen' : stride * n ≤ src.length := by omega
      have hrow : n * stride + width * 3 ≤ src.length := by
        have hcomm : n * stride = stride * n := Nat.mul_comm n stride
        omega
      rw [copy_rows_succ, List.length_append, ih src hws hlen']
      rw [List.length_take, List.length_drop]
      have hmin : min (width * 3) (src.length - n * stride) = width * 3 := by omega
      have hgoal : width * (n + 1) * 3 = width * n * 3 + width * 3 := by ring
      omega

/-- The spec's stripped-rows reference coincides with the code's row-by-row
copy whenever `width*3 ≤ stride`: stripping a `stride`-byte row to its first
`width*3` bytes is taking `width*3` bytes at the row start. -/
theorem reference_eq_copy_rows (width height stride : Nat) (src : List Nat)
    (hws : width * 3 ≤ stride) :
    rows_stripped_reference width height stride src = copy_rows width height stride src := by
  unfold rows_stripped_reference copy_rows
  have hmap : ∀ y : Nat,
      ((src.drop (y * stride)).take stride).take (width * 3) =
        (src.drop (y * stride)).take (width * 3) := by
    intro y
    rw [List.take_take, Nat.min_eq_left hws]
  simp only [hmap]
  rfl

/-- C6: for any decoded frame whose stride can hold a row (`stride ≥ width*3`,
with the RGB plane buffer of length `stride * height` as FFmpeg lays it out),
the normalized output buffer has length exactly `width * height * 3`, and
when `stride > width*3` it equals the reference buffer obtained by stripping
each `stride`-byte row to its first `width*3` bytes — no padding bytes leak
into the output. -/
theorem c6_normalize_length_and_strip :
    ∀ (width height stride : Nat) (src : List Nat),
      width * 3 ≤ stride → src.length = stride * height →
      (normalize_frame width height stride src).length = width * height * 3 ∧
      (width * 3 < stride →
        normalize_frame width height stride src =
          rows_stripped_reference width height stride src) := by
  intro width height stride src hws hlen
  unfold normalize_frame
  by_cases hfast : stride = width * 3
  · subst hfast
    rw [if_pos rfl]
    refine ⟨by rw [hlen]; ring, fun hcontr => absurd hcontr (lt_irrefl _)⟩
  · rw [if_neg hfast]
    refine ⟨copy_rows_length width stride height src hws (le_of_eq hlen.symm), fun _ =>
      (reference_eq_copy_rows width height stride src hws).symm⟩

/-- C6 (witness): a 1×2 frame with stride 4 (one padding byte per row). -/
theorem c6_normalize_length_and_strip_witness :
    (normalize_frame 1 2 4 [1, 2, 3, 9, 5, 6, 7, 8]).length = 1 * 2 * 3 ∧
    normalize_frame 1 2 4 [1, 2, 3, 9, 5, 6, 7, 8] =
      rows_stripped_reference 1 2 4 [1, 2, 3, 9, 5, 6, 7, 8] := by
  have h := c6_normalize_length_and_strip 1 2 4 [1, 2, 3, 9, 5, 6, 7, 8]
    (by decide) (by decide)
  exact ⟨h.1, h.2 (by decide)⟩

/-- Concatenating the consecutive `k`-byte rows of a buffer of length `k*h`
reproduces the buffer. -/
theorem flatMap_take_drop (k : Nat) :
    ∀ (h : Nat) (src : List Nat), src.length = k * h →
      (List.range h).flatMap (fun y => ((src.drop (y * k)).take k)) = src := by
  intro h
  induction h with
  | zero =>
      intro src hl
      simp only [Nat.mul_zero] at hl
      rw [List.length_eq_zero] at hl
      subst hl
      rfl
  | succ n ih =>
      intro src hl
      rw [List.range_succ_eq_map, List.flatMap_cons, List.flatMap_map]
      have hfun : (fun y => ((src.drop (Nat.succ y * k)).take k)) =
          (fun y => (((src.drop k).drop (y * k)).take k)) := by
        funext y
        rw [List.drop_drop, Nat.succ_mul, Nat.add_comm]
      rw [hfun]
      have hlen : (src.drop k).length = k * n := by
        rw [List.length_drop, hl, Nat.mul_succ]
        omega
      rw [ih (src.drop k) hlen]
      simp

/-- C7: for a frame whose stride equals `width * 3` (RGB plane buffer of
length `stride * height`), the fast-path verbatim copy that
`normalize_frame` selects is byte-for-byte identical to the row-by-row copy
`copy_rows` (copy bytes `[y*stride, y*stride + width*3)` for each row). -/
theorem c7_fast_path_eq_rows :
    ∀ (width height : Nat) (src : List Nat), src.length = (width * 3) * height →
      normalize_frame width height (width * 3) src = src ∧
      normalize_frame width height (width * 3) src =
        copy_rows width height (width * 3) src := by
  intro width height src hlen
  have hfast : normalize_frame width height (width * 3) src = src := by
    unfold normalize_frame
    rw [if_pos rfl]
  have hrows : copy_rows width height (width * 3) src = src := by
    unfold copy_rows
    exact flatMap_take_drop (width * 3) height src hlen
  exact ⟨hfast, hfast.trans hrows.symm⟩

/-- C7 (witness): a 2×2 frame with no padding (stride 6). -/
theorem c7_fast_path_eq_rows_witness :
    normalize_frame 2 2 (2 * 3) [1, 2, 3, 4, 5, 6, 7, 8, 9, 10, 11, 12] =
      copy_rows 2 2 (2 * 3) [1, 2, 3, 4, 5, 6, 7, 8, 9, 10, 11, 12] :=
  (c7_fast_path_eq_rows 2 2 [1, 2, 3, 4, 5, 6, 7, 8, 9, 10, 11, 12] (by decide)).2

/-- Cursor bookkeeping of one `next_frame` call: `current_frame` grows by
exactly one when a frame is returned — on either path — and is untouched on
`Ok(None)` and on errors. -/
theorem next_frame_cursor (s : PlayerState) :
    (∀ f, (next_frame s).2 = .ok (some f) →
      (next_frame s).1.current_frame = s.current_frame + 1) ∧
    ((next_frame s).2 = .ok none → (next_frame s).1.current_frame = s.current_frame) ∧
    (∀ e, (next_frame s).2 = .error e →
      (next_frame s).1.current_frame = s.current_frame) := by
  unfold next_frame
  split
  · exact ⟨fun f hf => by simp at hf, fun hf => by simp at hf, fun e' he => rfl⟩
  · exact ⟨fun f hf => rfl, fun hf => by simp [emit_normal] at hf,
      fun e' he => by simp [emit_normal] at he⟩
  · split
    · exact ⟨fun f hf => by simp at hf, fun hf => by simp at hf, fun e' he => rfl⟩
    · split
      · exact ⟨fun f hf => rfl, fun hf => by simp [emit_flush] at hf,
          fun e' he => by simp [emit_flush] at he⟩
      · exact ⟨fun f hf => by simp at hf, fun hf => rfl, fun e' he => by simp at he⟩

/-- `Emits s n s'` adds exactly `n` to the playback cursor: each emitted
frame increments `current_frame` by one. -/
theorem Emits.current_frame_add {s s' : PlayerState} {n : Nat}
    (hruns : Emits s n s') : s'.current_frame = s.current_frame + n := by
  induction hruns with
  | refl s => rfl
  | step hstep _rest ih =>
      rename_i s s1 s2 f k
      have hcf := (next_frame_cursor s).1 f (by rw [hstep])
      rw [hstep] at hcf
      simp only at hcf
      omega

/-- C5: the playback cursor starts at 0 (`VideoPlayer::new`), is incremented
by exactly one per emitted frame — identically by the normal-path and
flush-path loop bodies — and never changes on `Ok(None)` or on an error, so
after `N` successful frame-returning `next_frame` calls it equals `N`. -/
theorem c5_cursor_counts_frames :
    (∀ (packets : List Packet) (idx : Nat) (tb : ℚ) (tf : Nat) (dur : ℚ),
      (new_player packets idx tb tf dur).current_frame = 0) ∧
    (∀ (s : PlayerState) (raw : RawFrame),
      (emit_normal s raw).1.current_frame = s.current_frame + 1 ∧
      (emit_flush s raw).1.current_frame = s.current_frame + 1) ∧
    (∀ (s : PlayerState) (f : VideoFrame), (next_frame s).2 = .ok (some f) →
      (next_frame s).1.current_frame = s.current_frame + 1) ∧
    (∀ s : PlayerState, (next_frame s).2 = .ok none →
      (next_frame s).1.current_frame = s.current_frame) ∧
    (∀ (s : PlayerState) (e : DecodeError), (next_frame s).2 = .error e →
      (next_frame s).1.current_frame = s.current_frame) ∧
    (∀ (packets : List Packet) (idx : Nat) (tb : ℚ) (tf : Nat) (dur : ℚ)
      (n : Nat) (s' : PlayerState),
      Emits (new_player packets idx tb tf dur) n s' → s'.current_frame = n) := by
  refine ⟨fun _ _ _ _ _ => rfl, fun s raw => ⟨rfl, rfl⟩,
    fun s f => (next_frame_cursor s).1 f, fun s => (next_frame_cursor s).2.1,
    fun s e => (next_frame_cursor s).2.2 e, fun packets idx tb tf dur n s' hruns => ?_⟩
  have h := hruns.current_frame_add
  simpa [new_player] using h

/-- C5 (witness): after one successful call on a one-packet container the
cursor is 1. -/
theorem c5_cursor_counts_frames_witness : one_frame_player_after.current_frame = 1 := by
  have hstep : next_frame one_frame_player =
      (one_frame_player_after, Except.ok (some one_frame_frame)) := by
    norm_num [one_frame_player, one_frame_packet, one_frame_player_after, one_frame_frame,
      new_player, next_frame, read_packets, Decoder.send_packet, Decoder.receive_frame,
      emit_normal, normalize_frame, get_native_fps]
  exact c5_cursor_counts_frames.2.2.2.2.2 [one_frame_packet] 0 1 0 0 1 one_frame_player_after
    (Emits.step hstep (Emits.refl _))

/-- C4 (counterexample): the claim says every frame emitted by `next_frame`
carries the pts-derived timestamp whenever the decoder-reported pts is
present and nonnegative.  But the end-of-stream flush path (video_player.rs
lines 222-224) never consults the pts: a flush-drained frame with `pts = 5`
on a stream with time base 1 (so the claim demands timestamp 5) is emitted
with the fallback timestamp `current_frame / native_fps = 1`. -/
theorem c4_counterexample :
    (next_frame flush_player).2 =
      .ok (some { data := [], width := 0, height := 0, timestamp := 1, frame_number := 1 }) ∧
    flush_raw.pts = some 5 ∧
    (0 : ℚ) ≤ ((5 : Int) : ℚ) * flush_player.time_base ∧
    (1 : ℚ) ≠ ((5 : Int) : ℚ) * flush_player.time_base := by
  refine ⟨?_, rfl, by norm_num [flush_player, new_player], by norm_num [flush_player, new_player]⟩
  norm_num [flush_player, flush_raw, new_player, next_frame, read_packets,
    Decoder.send_packet, Decoder.receive_frame, Decoder.send_eof, emit_flush,
    normalize_frame, get_native_fps]

/-- C4 (amended): timestamps of emitted frames are derived per path.  On the
normal read path (`emit_normal`) the timestamp is the decoder-reported pts
scaled by the stream time base whenever the pts is present and that value is
nonnegative, and `current_frame / native_fps` otherwise; on the end-of-stream
flush path (`emit_flush`) it is always `current_frame / native_fps`, ignoring
any pts.  `native_fps` is `total_frames / duration` when `duration > 0` and
30.0 otherwise.  `next_frame` emits exactly through these two bodies, so
every emitted frame's timestamp is either a nonnegative pts-derived value or
the fallback. -/
theorem c4_timestamp_per_path :
    (∀ s : PlayerState, get_native_fps s =
      if s.duration > 0 then (s.total_frames : ℚ) / s.duration else 30) ∧
    (∀ (s : PlayerState) (raw : RawFrame) (pts : Int), raw.pts = some pts →
      0 ≤ (pts : ℚ) * s.time_base →
      ∀ f, (emit_normal s raw).2 = .ok (some f) →
        f.timestamp = (pts : ℚ) * s.time_base) ∧
    (∀ (s : PlayerState) (raw : RawFrame) (pts : Int), raw.pts = some pts →
      (pts : ℚ) * s.time_base < 0 →
      ∀ f, (emit_normal s raw).2 = .ok (some f) →
        f.timestamp = ((s.current_frame + 1 : Nat) : ℚ) / get_native_fps s) ∧
    (∀ (s : PlayerState) (raw : RawFrame), raw.pts = none →
      ∀ f, (emit_normal s raw).2 = .ok (some f) →
        f.timestamp = ((s.current_frame + 1 : Nat) : ℚ) / get_native_fps s) ∧
    (∀ (s : PlayerState) (raw : RawFrame),
      ∀ f, (emit_flush s raw).2 = .ok (some f) →
        f.timestamp = ((s.current_frame + 1 : Nat) : ℚ) / get_native_fps s) ∧
    (∀ (s : PlayerState) (rem : List Packet) (d : Decoder) (raw : RawFrame),
      read_packets s.packets s.video_stream_index s.dec = (rem, d, .ok (some raw)) →
      next_frame s = emit_normal { s with packets := rem, dec := d } raw) ∧
    (∀ (s : PlayerState) (rem : List Packet) (d d1 d2 : Decoder) (raw : RawFrame),
      read_packets s.packets s.video_stream_index s.dec = (rem, d, .ok none) →
      d.send_eof = .ok d1 → d1.receive_frame = (d2, some raw) →
      next_frame s = emit_flush { s with packets := rem, dec := d2 } raw) ∧
    (∀ (s : PlayerState) (f : VideoFrame), (next_frame s).2 = .ok (some f) →
      f.timestamp = ((s.current_frame + 1 : Nat) : ℚ) / get_native_fps s ∨
      ∃ pts : Int, 0 ≤ (pts : ℚ) * s.time_base ∧
        f.timestamp = (pts : ℚ) * s.time_base) := by
  have hnormal : ∀ (s : PlayerState) (raw : RawFrame) (f : VideoFrame),
      (emit_normal s raw).2 = .ok (some f) →
      f.timestamp = ((s.current_frame + 1 : Nat) : ℚ) / get_native_fps s ∨
      ∃ pts : Int, 0 ≤ (pts : ℚ) * s.time_base ∧
        f.timestamp = (pts : ℚ) * s.time_base := by
    intro s raw f hf
    rcases hpts : raw.pts with _ | pts
    · simp only [emit_normal, hpts] at hf
      injection hf with h1
      injection h1 with h2
      subst h2
      left
      rfl
    · by_cases hnn : (pts : ℚ) * s.time_base ≥ 0
      · simp only [emit_normal, hpts] at hf
        rw [if_pos hnn] at hf
        injection hf with h1
        injection h1 with h2
        subst h2
        right
        exact ⟨pts, hnn, rfl⟩
      · simp only [emit_normal, hpts] at hf
        rw [if_neg hnn] at hf
        injection hf with h1
        injection h1 with h2
        subst h2
        left
        rfl
  have hflush : ∀ (s : PlayerState) (raw : RawFrame) (f : VideoFrame),
      (emit_flush s raw).2 = .ok (some f) →
      f.timestamp = ((s.current_frame + 1 : Nat) : ℚ) / get_native_fps s := by
    intro s raw f hf
    simp only [emit_flush] at hf
    injection hf with h1
    injection h1 with h2
    subst h2
    rfl
  refine ⟨fun s => rfl, ?_, ?_, ?_, hflush, ?_, ?_, ?_⟩
  · intro s raw pts hpts hnn f hf
    simp only [emit_normal, hpts] at hf
    rw [if_pos hnn] at hf
    injection hf with h1
    injection h1 with h2
    subst h2
    rfl
  · intro s raw pts hpts hneg f hf
    simp only [emit_normal, hpts] at hf
    rw [if_neg (not_le.mpr hneg)] at hf
    injection hf with h1
    injection h1 with h2
    subst h2
    rfl
  · intro s raw hpts f hf
    simp only [emit_normal, hpts] at hf
    injection hf with h1
    injection h1 with h2
    subst h2
    rfl
  · intro s rem d raw hread
    simp only [next_frame, hread]
  · intro s rem d d1 d2 raw hread heof hrecv
    simp only [next_frame, hread, heof, hrecv]
  · intro s f hf
    unfold next_frame at hf
    split at hf
    · simp at hf
    · exact hnormal _ _ f hf
    · split at hf
      · simp at hf
      · split at hf
        · left
          exact hflush _ _ f hf
        · simp at hf

/-- C4 (witness for the amended theorem): on the normal path, a frame with
`pts = 2` and time base 1 is emitted with timestamp `2 * 1 = 2`. -/
theorem c4_timestamp_per_path_witness :
    pts_frame.timestamp = ((2 : Int) : ℚ) * pts_player.time_base := by
  refine c4_timestamp_per_path.2.1 pts_player pts_raw 2 rfl
    (by norm_num [pts_player, new_player]) pts_frame ?_
  norm_num [emit_normal, pts_player, pts_raw, pts_frame, new_player, normalize_frame]

/-- C2: end-of-stream is not stable.  `next_frame` re-sends the flush packet
on every call once the container is exhausted (`self.decoder.send_eof()?`,
video_player.rs line 196, is unguarded), and FFmpeg's documented
`avcodec_send_packet` contract returns `AVERROR_EOF` when more than one
flush packet is sent.  So the call after the first `Ok(None)` returns
`Err(EOF)` rather than `Ok(None)`; and when more than one frame is buffered
for the flush, the second call errors while decoded frames still sit in the
decoder, losing them. -/
theorem c2_eos_err_after_none :
    (next_frame exhausted_player).2 = .ok none ∧
    (next_frame (next_frame exhausted_player).1).2 = .error .eof ∧
    ((next_frame (next_frame two_flush_player).1).2 = .error .eof ∧
      (next_frame (next_frame two_flush_player).1).1.dec.queue ≠ []) := by
  refine ⟨?_, ?_, ?_, ?_⟩
  · norm_num [exhausted_player, new_player, next_frame, read_packets, Decoder.send_eof,
      Decoder.receive_frame]
  · norm_num [exhausted_player, new_player, next_frame, read_packets, Decoder.send_eof,
      Decoder.receive_frame]
  · norm_num [two_flush_player, new_player, next_frame, read_packets, Decoder.send_packet,
      Decoder.send_eof, Decoder.receive_frame, emit_flush, normalize_frame, get_native_fps]
  · norm_num [two_flush_player, new_player, next_frame, read_packets, Decoder.send_packet,
      Decoder.send_eof, Decoder.receive_frame, emit_flush, normalize_frame, get_native_fps]
